import Mathlib

/-!
Verification development for the transcoding layer of the event-sourcing
repository (`eventsourcing/domain/services/transcoding.py`).

The Python module is shallowly embedded: Python runtime values are the
`PyVal` family below, JSON documents are the `JVal` family, exceptions are
the `PyErr` type, and classes are closed `ClassSpec` records resolved
through an explicit environment `PyEnv` (the topic resolver and
`importlib`-based attribute resolution live in a module of the repository
that is not part of the sources under verification; they are modelled from
the specification where noted).

Python dictionaries are modelled as key-sorted, duplicate-free association
lists: Python dict equality is key-based and order-insensitive, so sorted
lists are canonical representatives of the finite maps the code manipulates
(compare the sorted-list maps of verified-systems developments).  The
`json.dumps(..., sort_keys=True)` call in the source makes the sorted
order also the serialisation order.
-/

namespace Transcoding

mutual
/-- Python runtime values, restricted to the shapes the transcoding module
manipulates: JSON-native values (strings, ints, bools, None, lists, dicts),
plus the "special" values handled by the `ObjectJSONEncoder` hook chain
(datetimes, dates, one-dimensional numpy arrays, and generic objects).
A `datetime` carries its ISO-8601 rendering; an `ndarray` carries the
latin-1 decoding of its `numpy.save` buffer; an `obj` carries its class
identity (`__module__`, `__qualname__`) and its `__dict__`.
Floats are outside the modelled value domain. -/
inductive PyVal where
  | str (s : String)
  | int (n : Int)
  | bool (b : Bool)
  | none
  | list (xs : PyList)
  | dict (d : PyFields)
  | datetime (iso : String)
  | date (y m d : Nat)
  | ndarray (buf : String)
  | obj (module qualname : String) (attrs : PyFields)

/-- A Python list of `PyVal`s (own list type so that all recursions over
values are structural). -/
inductive PyList where
  | nil
  | cons (v : PyVal) (tl : PyList)

/-- A Python dict with string keys, as an association list; canonical
(dicts are kept key-sorted and duplicate-free). -/
inductive PyFields where
  | nil
  | cons (k : String) (v : PyVal) (tl : PyFields)
end

mutual
/-- JSON documents: the image of `json.dumps`.  The Python string produced
by `json.dumps` denotes exactly such a document; the standard-library
round trip between the document and its textual rendering is exact on this
domain, so stored payloads are modelled at document granularity. -/
inductive JVal where
  | str (s : String)
  | int (n : Int)
  | bool (b : Bool)
  | null
  | arr (xs : JList)
  | obj (fields : JFields)

/-- A JSON array. -/
inductive JList where
  | nil
  | cons (v : JVal) (tl : JList)

/-- A JSON object, as an association list of string keys and documents. -/
inductive JFields where
  | nil
  | cons (k : String) (v : JVal) (tl : JFields)
end

/-! ### String ordering and helpers

Python compares strings lexicographically by code point; we implement the
comparison directly over the character list so that every use is a plain
structural computation. -/

/-- Lexicographic strict order on character lists by code point. -/
def charsLt : List Char → List Char → Bool
  | [], [] => false
  | [], _ :: _ => true
  | _ :: _, [] => false
  | a :: as, b :: bs =>
    if a.toNat < b.toNat then true
    else if b.toNat < a.toNat then false
    else charsLt as bs

/-- Python's `<` on strings (lexicographic by code point). -/
def strLt (a b : String) : Bool := charsLt a.data b.data

/-- Split a character list on a separator character. -/
def splitCharsOn (sep : Char) : List Char → List Char → List (List Char)
  | [], acc => [acc.reverse]
  | c :: cs, acc =>
    if c = sep then acc.reverse :: splitCharsOn sep cs []
    else splitCharsOn sep cs (c :: acc)

/-- Python `s.split(sep)` for a one-character separator. -/
def splitChar (s : String) (sep : Char) : List String :=
  (splitCharsOn sep s.data []).map (fun cs => ⟨cs⟩)

/-- Is `pat` a prefix of `l`? -/
def charsHasPre : List Char → List Char → Bool
  | [], _ => true
  | _ :: _, [] => false
  | a :: as, b :: bs => a == b && charsHasPre as bs

/-- Contiguous-sublist (substring) test on character lists. -/
def charsHasSub (pat : List Char) : List Char → Bool
  | [] => charsHasPre pat []
  | b :: bs => charsHasPre pat (b :: bs) || charsHasSub pat bs

/-- Python's `pat in s` substring test. -/
def strHasSub (s pat : String) : Bool := charsHasSub pat.data s.data

/-! ### Dictionary operations (canonical sorted association lists) -/

/-- Python `key in d`. -/
def hasKeyF : PyFields → String → Bool
  | .nil, _ => false
  | .cons k _ tl, key => k = key || hasKeyF tl key

/-- Python `d[key]`, as an option (`KeyError` handled at call sites). -/
def getKeyF : PyFields → String → Option PyVal
  | .nil, _ => Option.none
  | .cons k v tl, key => if k = key then some v else getKeyF tl key

/-- Python `d.pop(key)`: the popped value together with the remaining
dict; `Option.none` models the `KeyError` case. -/
def popKeyF : PyFields → String → Option (PyVal × PyFields)
  | .nil, _ => Option.none
  | .cons k v tl, key =>
    if k = key then some (v, tl)
    else match popKeyF tl key with
      | Option.none => Option.none
      | some (v2, rest) => some (v2, .cons k v rest)

/-- Python `d[key] = v` on a canonical dict: replace the binding if the
key is present, otherwise insert at the sorted position (the canonical
representative of Python's insert-at-end). -/
def dictSetF (d : PyFields) (key : String) (v : PyVal) : PyFields :=
  match d with
  | .nil => .cons key v .nil
  | .cons k1 v1 tl =>
    if key = k1 then .cons k1 v tl
    else if strLt key k1 then .cons key v (.cons k1 v1 tl)
    else .cons k1 v1 (dictSetF tl key v)

/-- Fold `d[k] = v` over a list of assignments (left to right). -/
def dictSetAllF : PyFields → PyFields → PyFields
  | acc, .nil => acc
  | acc, .cons k v tl => dictSetAllF (dictSetF acc k v) tl

/-- Number of entries. -/
def lengthF : PyFields → Nat
  | .nil => 0
  | .cons _ _ tl => lengthF tl + 1

/-- Every key of `d` is strictly greater than `k`. -/
def keysAboveF (k : String) : PyFields → Bool
  | .nil => true
  | .cons k2 _ tl => strLt k k2 && keysAboveF k tl

/-- The canonical-dict invariant: keys strictly ascending (hence
duplicate-free). -/
def keysSortedF : PyFields → Bool
  | .nil => true
  | .cons k _ tl => keysAboveF k tl && keysSortedF tl

/-! ### Python exceptions

The source raises built-in `ValueError`, `TypeError`, `KeyError`,
`AttributeError` and `AssertionError`; the topic resolver (imported from a
module outside the verified sources and modelled from the spec) fails with
the spec's `TypeResolutionError`, and the `importlib`-based class lookup of
the decoder with an import failure.  `fuelExhausted` is a modelling device
only: the decoder-hook recursion is run with a structural bound that
dominates its actual descent, and no result in this development is
`fuelExhausted`. -/
inductive PyErr where
  | valueError (msg : String)
  | typeError (msg : String)
  | keyError (key : String)
  | attributeError (msg : String)
  | assertionError (msg : String)
  | typeResolutionError (topic : String)
  | importError (name : String)
  | fuelExhausted
deriving DecidableEq

/-- A single apostrophe, used when rebuilding the source's error-message
format strings. -/
def sq : String := String.singleton (Char.ofNat 39)

/-! ### Classes and the resolution environment

The domain-event classes, and any class reachable by the decoder's
fully-qualified-name lookup, form a closed world described by `ClassSpec`
records.  The callable behaviour a class exposes to this module is: its
identity (`__module__`, `__qualname__`, its `repr`), its `always_encrypt`
class attribute, whether the resolved symbol is a type at all and whether
it is a subclass of `DomainEvent`, whether `object.__new__` on it raises
`TypeError` (builtin-backed types), whether its instances lack a mutable
`__dict__` (`__slots__`-like fixed-attribute types), and its constructor
`construct` mapping keyword arguments to the new instance's `__dict__` (or
an exception). -/
structure ClassSpec where
  module : String
  qualname : String
  reprStr : String
  alwaysEncrypt : Bool
  isType : Bool
  isDomainEvent : Bool
  newRaisesTypeError : Bool
  hasSlots : Bool
  construct : PyFields → Except PyErr PyFields

/-- The process environment seen by the two dynamic-resolution mechanisms:
`resolveTopic` is the topic resolver's mapping from topic strings to
loaded objects, and `classes` is the decoder's
`importlib.import_module` + attribute lookup by (module, qualified name).
Both mechanisms live in a repository module outside the verified sources;
they are modelled from the spec as environment lookups. -/
structure PyEnv where
  resolveTopic : String → Option ClassSpec
  classes : String → String → Option ClassSpec

/-- A domain event object: its concrete class and its `__dict__`. -/
structure DomainEventObj where
  cls : ClassSpec
  attrs : PyFields

/-! ### `ObjectJSONEncoder` / `json.dumps`

`json.dumps(..., sort_keys=True, cls=ObjectJSONEncoder)` walks the value:
native values are rendered directly (objects with their keys sorted), and
any non-native value is passed to `ObjectJSONEncoder.default`, whose hook
chain is, in source order: `datetime.datetime` → tagged ISO-8601 string;
`datetime.date` → tagged ISO date string; one-dimensional `numpy.ndarray`
→ tagged `json.dumps` of the latin-1-decoded save buffer; anything else →
tagged `__class__`/`__module__` pair (and nothing else — the object's
attributes are not encoded).  (The `super().default` call at the top of
`default` always raises `TypeError: ... not JSON serializable` for these
values, so control always reaches the hook chain; numpy is taken to be
taken as importable, arrays one-dimensional; multi-dimensional arrays and
the numpy-less configuration are outside the modelled value domain.) -/

/-- Zero-pad a natural to `w` digits. -/
def padNat (w n : Nat) : String :=
  let s := toString n
  ⟨List.replicate (w - s.data.length) (Char.ofNat 48) ++ s.data⟩

/-- `datetime.date.isoformat()`: `YYYY-MM-DD`. -/
def isoDateStr (y m d : Nat) : String :=
  padNat 4 y ++ "-" ++ padNat 2 m ++ "-" ++ padNat 2 d

/-- `json.dumps` of a plain Python string: quoted, with backslash and
quote escaped (an approximation of the full escaping rules, which are not
load-bearing here — the value is only carried opaquely inside the
`__ndarray__` tag). -/
def renderJsonStr (s : String) : String :=
  let esc : List Char → List Char := fun cs =>
    cs.flatMap (fun c =>
      if c = Char.ofNat 34 || c = Char.ofNat 92 then [Char.ofNat 92, c] else [c])
  ⟨Char.ofNat 34 :: esc s.data ++ [Char.ofNat 34]⟩

/-- Inverse of `renderJsonStr`: `json.loads` restricted to string
literals, as used by `_decode_ndarray`. -/
def parseJsonStr (s : String) : Except PyErr String :=
  let rec unesc : List Char → Option (List Char)
    | [] => Option.none
    | [c] => if c = Char.ofNat 34 then some [] else Option.none
    | c :: c2 :: cs =>
      if c = Char.ofNat 92 then (unesc cs).map (fun r => c2 :: r)
      else if c = Char.ofNat 34 then Option.none
      else (unesc (c2 :: cs)).map (fun r => c :: r)
  match s.data with
  | c :: cs =>
    if c = Char.ofNat 34 then
      match unesc cs with
      | some r => .ok ⟨r⟩
      | Option.none => .error (.valueError "Expecting value")
    else .error (.valueError "Expecting value")
  | [] => .error (.valueError "Expecting value")

/-- Insert one entry into a key-sorted JSON-object field list (ascending,
stable). -/
def insertFieldJ (k : String) (v : JVal) : JFields → JFields
  | .nil => .cons k v .nil
  | .cons k2 v2 tl =>
    if strLt k2 k then .cons k2 v2 (insertFieldJ k v tl)
    else .cons k v (.cons k2 v2 tl)

/-- Sort a JSON object's fields by key — the `sort_keys=True` ordering. -/
def sortFieldsJ : JFields → JFields
  | .nil => .nil
  | .cons k v tl => insertFieldJ k v (sortFieldsJ tl)

mutual
/-- The document `json.dumps(v, separators=(",", ":"), sort_keys=True,
cls=ObjectJSONEncoder)` denotes. -/
def json_dumps : PyVal → JVal
  | .str s => .str s
  | .int n => .int n
  | .bool b => .bool b
  | .none => .null
  | .list xs => .arr (json_dumpsList xs)
  | .dict d => .obj (sortFieldsJ (json_dumpsFields d))
  | .datetime iso => .obj (.cons "ISO8601_datetime" (.str iso) .nil)
  | .date y m dd => .obj (.cons "ISO8601_date" (.str (isoDateStr y m dd)) .nil)
  | .ndarray buf => .obj (.cons "__ndarray__" (.str (renderJsonStr buf)) .nil)
  | .obj module qualname _ =>
    .obj (.cons "__class__" (.str qualname) (.cons "__module__" (.str module) .nil))

/-- `json.dumps` on each element of a list. -/
def json_dumpsList : PyList → JList
  | .nil => .nil
  | .cons v tl => .cons (json_dumps v) (json_dumpsList tl)

/-- `json.dumps` on each value of a dict. -/
def json_dumpsFields : PyFields → JFields
  | .nil => .nil
  | .cons k v tl => .cons k (json_dumps v) (json_dumpsFields tl)
end

/-! ### `ObjectJSONDecoder` / `json.loads`

`json.loads(..., cls=ObjectJSONDecoder)` installs
`ObjectJSONDecoder.from_jsonable` as the `object_hook`: it is applied to
every parsed JSON object, innermost first, and dispatches on the presence
of a reserved tag key — `__ndarray__` first, then `__class__` together
with `__module__`, then `ISO8601_datetime`, then `ISO8601_date`; a dict
containing none of these is returned unchanged.  `_decode_class` pops the
two tag keys, resolves the named class, and reconstructs in two tiers:
`cls(**d)`, and on any exception `cls()` followed by assigning each
remaining attribute `from_jsonable(value)` directly into the instance's
`__dict__`. -/

/-- Are all characters ASCII digits? (Empty list fails.) -/
def allDigits : List Char → Bool
  | [] => false
  | [c] => 48 ≤ c.toNat && c.toNat ≤ 57
  | c :: cs => (48 ≤ c.toNat && c.toNat ≤ 57) && allDigits cs

/-- Digits to the natural they denote. -/
def digitsToNat (cs : List Char) : Nat :=
  cs.foldl (fun acc c => acc * 10 + (c.toNat - 48)) 0

/-- Gregorian leap year (as `datetime` computes it). -/
def isLeapYear (y : Nat) : Bool :=
  (y % 4 = 0 && y % 100 ≠ 0) || y % 400 = 0

/-- Days in a month, as validated by the `datetime` constructor. -/
def daysInMonth (y m : Nat) : Nat :=
  if m = 2 then (if isLeapYear y then 29 else 28)
  else if m = 4 || m = 6 || m = 9 || m = 11 then 30
  else 31

/-- `datetime.datetime.strptime(s, "%Y-%m-%d").date()`: three dash-separated
digit groups, validated by the `datetime` range rules. -/
def parseDate (s : String) : Option (Nat × Nat × Nat) :=
  match splitChar s (Char.ofNat 45) with
  | [ys, ms, ds] =>
    if allDigits ys.data && allDigits ms.data && allDigits ds.data then
      let y := digitsToNat ys.data
      let m := digitsToNat ms.data
      let d := digitsToNat ds.data
      if 1 ≤ y && y ≤ 9999 && 1 ≤ m && m ≤ 12 && 1 ≤ d && d ≤ daysInMonth y m then
        some (y, m, d)
      else Option.none
    else Option.none
  | _ => Option.none

/-- `ObjectJSONDecoder._decode_datetime`: `dateutil.parser.parse` of the
tagged string (the external parser is modelled as accepting the carried
ISO-8601 rendering; nothing in this development depends on its internals). -/
def decode_datetime (d : PyFields) : Except PyErr PyVal :=
  match getKeyF d "ISO8601_datetime" with
  | some (.str s) => .ok (.datetime s)
  | some _ => .error (.typeError "parser getreader expects a string")
  | Option.none => .error (.keyError "ISO8601_datetime")

/-- `ObjectJSONDecoder._decode_date`: `strptime(..., "%Y-%m-%d").date()`. -/
def decode_date (d : PyFields) : Except PyErr PyVal :=
  match getKeyF d "ISO8601_date" with
  | some (.str s) =>
    match parseDate s with
    | some (y, m, dd) => .ok (.date y m dd)
    | Option.none => .error (.valueError "time data does not match format %Y-%m-%d")
  | some _ => .error (.typeError "strptime argument must be str")
  | Option.none => .error (.keyError "ISO8601_date")

/-- `ObjectJSONDecoder._decode_ndarray`: `json.loads` the tagged string,
re-encode latin-1, `numpy.load` the buffer (`numpy.load` is modelled as
the inverse of the save that produced the buffer). -/
def decode_ndarray (d : PyFields) : Except PyErr PyVal :=
  match getKeyF d "__ndarray__" with
  | some (.str serialized) => (parseJsonStr serialized).map PyVal.ndarray
  | some _ => .error (.typeError "the JSON object must be str, bytes or bytearray")
  | Option.none => .error (.keyError "__ndarray__")

/-- Does the list contain the string `pat` as an element (Python `in` on a
list)? -/
def listHasStr : PyList → String → Bool
  | .nil, _ => false
  | .cons (.str s) tl, pat => s = pat || listHasStr tl pat
  | .cons _ tl, pat => listHasStr tl pat

mutual
/-- Structural size of a value (an executable stand-in for `sizeOf`,
used to seed the decoder-hook recursion bound). -/
def pySizeVal : PyVal → Nat
  | .str _ => 1
  | .int _ => 1
  | .bool _ => 1
  | .none => 1
  | .datetime _ => 1
  | .date _ _ _ => 1
  | .ndarray _ => 1
  | .obj _ _ attrs => pySizeFields attrs + 1
  | .list xs => pySizeList xs + 1
  | .dict d => pySizeFields d + 1

/-- Structural size of a list of values. -/
def pySizeList : PyList → Nat
  | .nil => 1
  | .cons v tl => pySizeVal v + pySizeList tl + 1

/-- Structural size of a field list. -/
def pySizeFields : PyFields → Nat
  | .nil => 1
  | .cons _ v tl => pySizeVal v + pySizeFields tl + 1
end

mutual
/-- `ObjectJSONDecoder.from_jsonable` applied to an arbitrary Python value
`d`, as the class-decoder fallback does to each already-decoded attribute
value.  Python's `tag in d` drives the dispatch: key lookup on a dict,
substring test on a str, element test on a list, and a `TypeError` on
non-container values (`argument of type ... is not iterable`); when a
non-dict passes one of the guards, the corresponding `_decode_*` helper
then fails on the dict-only operations it performs.  The first argument is
a structural recursion bound; every entry point supplies a bound that
dominates the actual descent (which strictly descends into subvalues), so
`fuelExhausted` never surfaces. -/
def from_jsonable_valF : Nat → PyEnv → PyVal → Except PyErr PyVal
  | 0, _, _ => .error .fuelExhausted
  | f + 1, env, .dict d => from_jsonableF' f env d
  | _ + 1, _, .str s =>
    if strHasSub s "__ndarray__" then .error (.typeError "string indices must be integers")
    else if strHasSub s "__class__" && strHasSub s "__module__" then
      .error (.attributeError "str object has no attribute pop")
    else if strHasSub s "ISO8601_datetime" then .error (.typeError "string indices must be integers")
    else if strHasSub s "ISO8601_date" then .error (.typeError "string indices must be integers")
    else .ok (.str s)
  | _ + 1, _, .list xs =>
    if listHasStr xs "__ndarray__" then .error (.typeError "list indices must be integers")
    else if listHasStr xs "__class__" && listHasStr xs "__module__" then
      .error (.attributeError "list object has no attribute pop")
    else if listHasStr xs "ISO8601_datetime" then .error (.typeError "list indices must be integers")
    else if listHasStr xs "ISO8601_date" then .error (.typeError "list indices must be integers")
    else .ok (.list xs)
  -- numpy's elementwise `in` finds no tag string in a numeric array, so
  -- every guard is false and the array is returned unchanged.
  | _ + 1, _, .ndarray buf => .ok (.ndarray buf)
  | _ + 1, _, .int _ => .error (.typeError "argument of type int is not iterable")
  | _ + 1, _, .bool _ => .error (.typeError "argument of type bool is not iterable")
  | _ + 1, _, .none => .error (.typeError "argument of type NoneType is not iterable")
  | _ + 1, _, .datetime _ => .error (.typeError "argument of type datetime is not iterable")
  | _ + 1, _, .date _ _ _ => .error (.typeError "argument of type date is not iterable")
  | _ + 1, _, .obj _ _ _ => .error (.typeError "argument of type object is not iterable")

/-- `ObjectJSONDecoder.from_jsonable` on a dict: dispatch on reserved tag
keys, in source order; a dict with none of them is returned unchanged. -/
def from_jsonableF' : Nat → PyEnv → PyFields → Except PyErr PyVal
  | 0, _, _ => .error .fuelExhausted
  | f + 1, env, d =>
    if hasKeyF d "__ndarray__" then decode_ndarray d
    else if hasKeyF d "__class__" && hasKeyF d "__module__" then decode_classF f env d
    else if hasKeyF d "ISO8601_datetime" then decode_datetime d
    else if hasKeyF d "ISO8601_date" then decode_date d
    else .ok (.dict d)

/-- `ObjectJSONDecoder._decode_class`: pop `__class__` and `__module__`,
resolve the class by import, then reconstruct in two tiers: `cls(**d)`,
and on any exception `cls()` followed by assigning
`from_jsonable(value)` for each remaining attribute directly into the
instance's `__dict__` (the second constructor failure propagates). -/
def decode_classF : Nat → PyEnv → PyFields → Except PyErr PyVal
  | 0, _, _ => .error .fuelExhausted
  | f + 1, env, d =>
    match popKeyF d "__class__" with
    | Option.none => .error (.keyError "__class__")
    | some (cv, d1) =>
      match popKeyF d1 "__module__" with
      | Option.none => .error (.keyError "__module__")
      | some (mv, d2) =>
        match cv, mv with
        | .str class_name, .str module_name =>
          match env.classes module_name class_name with
          | Option.none => .error (.importError (module_name ++ "." ++ class_name))
          | some cls =>
            match cls.construct d2 with
            | .ok attrs => .ok (.obj cls.module cls.qualname attrs)
            | .error _ =>
              match cls.construct .nil with
              | .error e => .error e
              | .ok a0 =>
                match rehookAllF f env d2 with
                | .error e => .error e
                | .ok d2x => .ok (.obj cls.module cls.qualname (dictSetAllF a0 d2x))
        | _, _ => .error (.typeError "import_module argument must be str")

/-- The class-decoder fallback loop: hook each remaining attribute value
(assignments happen left to right; the first exception propagates). -/
def rehookAllF : Nat → PyEnv → PyFields → Except PyErr PyFields
  | 0, _, _ => .error .fuelExhausted
  | _ + 1, _, .nil => .ok .nil
  | f + 1, env, .cons k v tl =>
    match from_jsonable_valF f env v with
    | .error e => .error e
    | .ok v2 =>
      match rehookAllF f env tl with
      | .error e => .error e
      | .ok tl2 => .ok (.cons k v2 tl2)
end

/-- `ObjectJSONDecoder.from_jsonable` on a parsed JSON object, with the
recursion bound instantiated to a dominating structural bound. -/
def from_jsonable (env : PyEnv) (d : PyFields) : Except PyErr PyVal :=
  from_jsonableF' (pySizeFields d + 1) env d

mutual
/-- The Python value `json.loads(text, cls=ObjectJSONDecoder)` produces
for the text rendering of document `j`: native constructs map to
themselves, and the `object_hook` is applied to every object, innermost
first (the top-level object included). -/
def json_loadsVal (env : PyEnv) : JVal → Except PyErr PyVal
  | .str s => .ok (.str s)
  | .int n => .ok (.int n)
  | .bool b => .ok (.bool b)
  | .null => .ok .none
  | .arr xs =>
    match json_loadsList env xs with
    | .error e => .error e
    | .ok l => .ok (.list l)
  | .obj fs =>
    match json_loadsFields env fs with
    | .error e => .error e
    | .ok d => from_jsonable env d

/-- `json.loads` on each element of an array. -/
def json_loadsList (env : PyEnv) : JList → Except PyErr PyList
  | .nil => .ok .nil
  | .cons v tl =>
    match json_loadsVal env v with
    | .error e => .error e
    | .ok v2 =>
      match json_loadsList env tl with
      | .error e => .error e
      | .ok tl2 => .ok (.cons v2 tl2)

/-- `json.loads` on each member of an object, before the hook sees it. -/
def json_loadsFields (env : PyEnv) : JFields → Except PyErr PyFields
  | .nil => .ok .nil
  | .cons k v tl =>
    match json_loadsVal env v with
    | .error e => .error e
    | .ok v2 =>
      match json_loadsFields env tl with
      | .error e => .error e
      | .ok tl2 => .ok (.cons k v2 tl2)
end

/-! ### `str`/`repr` renderings (for `'{}'.format(...)` in messages) -/

mutual
/-- Approximation of Python `repr`, used only to rebuild the error-message
strings the source formats with `'{}'.format(...)`; its exact output is
not load-bearing. -/
def pyRepr : PyVal → String
  | .str s => sq ++ s ++ sq
  | .int n => toString n
  | .bool b => if b then "True" else "False"
  | .none => "None"
  | .list xs => "[" ++ pyReprList xs ++ "]"
  | .dict d => "\x7b" ++ pyReprFields d ++ "\x7d"
  | .datetime iso => "datetime(" ++ iso ++ ")"
  | .date y m d => "date(" ++ toString y ++ ", " ++ toString m ++ ", " ++ toString d ++ ")"
  | .ndarray buf => "array(" ++ buf ++ ")"
  | .obj module qualname _ => "<" ++ module ++ "." ++ qualname ++ " object>"

/-- `repr` of list elements, comma-separated. -/
def pyReprList : PyList → String
  | .nil => ""
  | .cons v .nil => pyRepr v
  | .cons v tl => pyRepr v ++ ", " ++ pyReprList tl

/-- `repr` of dict entries, comma-separated. -/
def pyReprFields : PyFields → String
  | .nil => ""
  | .cons k v .nil => sq ++ k ++ sq ++ ": " ++ pyRepr v
  | .cons k v tl => sq ++ k ++ sq ++ ": " ++ pyRepr v ++ ", " ++ pyReprFields tl
end

/-- Python `str()`, as `'{}'.format(...)` applies it. -/
def pyStr : PyVal → String
  | .str s => s
  | v => pyRepr v

/-! ### Error-message constants of the source -/

/-- Source line 81: `"Can't encrypt without a cipher"`. -/
def msg_cant_encrypt : String := "Can" ++ sq ++ "t encrypt without a cipher"

/-- Source line 116: `"Can't decrypt stored event without a cipher"`. -/
def msg_cant_decrypt : String := "Can" ++ sq ++ "t decrypt stored event without a cipher"

/-- Source line 102: `"Event class is not a type: {}"`. -/
def msg_not_type (r : String) : String := "Event class is not a type: " ++ r

/-- Source line 105: `"Event class is not a DomainEvent: {}"`. -/
def msg_not_domain_event (r : String) : String := "Event class is not a DomainEvent: " ++ r

/-- Source lines 130-131:
`"Unable to instantiate class '{}' with data '{}'"`. -/
def msg_unable (topic : String) (attrs : PyVal) : String :=
  "Unable to instantiate class " ++ sq ++ topic ++ sq ++ " with data " ++ sq
    ++ pyRepr attrs ++ sq

/-- The `AttributeError` raised by `instance.__dict__` on a
fixed-attribute (`__slots__`-like) instance. -/
def msg_no_dict : String := "object has no attribute __dict__"

/-- The `AttributeError` for a missing `entity_id` attribute. -/
def msg_no_entity_id : String := "object has no attribute entity_id"

/-! ### Topic resolution (external module, modelled from the spec) -/

/-- Modelled from the spec: `topic_from_domain_class` (imported from the
repository's events module, which is not among the verified sources) maps
a type to a stable string naming its module and qualified class name
(§4.1/§6 of the spec); the concrete rendering joins them with `#`. -/
def topic_from_domain_class (c : ClassSpec) : String :=
  c.module ++ "#" ++ c.qualname

/-- Modelled from the spec: `resolve_domain_topic` (imported from the
repository's events module, which is not among the verified sources)
resolves a topic string to the loaded object it names, failing with the
spec's `TypeResolutionError` when the named module/type cannot be located
(§4.1 of the spec). -/
def resolve_domain_topic (env : PyEnv) (topic : String) : Except PyErr ClassSpec :=
  match env.resolveTopic topic with
  | some cls => .ok cls
  | Option.none => .error (.typeResolutionError topic)

/-! ### Stream keys and id prefixes (source lines 233-244) -/

/-- `make_stored_entity_id(id_prefix, entity_id)`:
`'{}::{}'.format(id_prefix, entity_id)`. -/
def make_stored_entity_id (id_pre : String) (entity_id : PyVal) : String :=
  id_pre ++ "::" ++ pyStr entity_id

/-- `id_prefix_from_event_class`: assert the class is a `DomainEvent`
subclass, then take the outermost component of its qualified name
(`__qualname__.split('.')[0]`). -/
def id_prefix_from_event_class (c : ClassSpec) : Except PyErr String :=
  if c.isDomainEvent then
    .ok ((splitChar c.qualname (Char.ofNat 46)).headD "")
  else .error (.assertionError c.reprStr)

/-- `id_prefix_from_event`: assert the object is a `DomainEvent` instance,
then defer to `id_prefix_from_event_class` on its type. -/
def id_prefix_from_event (e : DomainEventObj) : Except PyErr String :=
  if e.cls.isDomainEvent then id_prefix_from_event_class e.cls
  else .error (.assertionError e.cls.reprStr)

/-! ### The Transcoder -/

/-- The serialised attribute payload of a stored event: in JSON mode a
Python `str` — carried at the granularity of the JSON document it renders
(ciphertext included, since the cipher maps payload to payload); in
pass-through (`serialize_without_json`) mode the raw attribute dict. -/
inductive EventAttrs where
  | text (j : JVal)
  | raw (d : PyFields)

/-- The injected cipher collaborator: symmetric `encrypt`/`decrypt` over
serialised payloads. -/
structure Cipher where
  encrypt : JVal → JVal
  decrypt : JVal → JVal

/-- The JSON-encoder classes available in this closed world (the module
defines exactly `ObjectJSONEncoder`; `None` in the transcoder field means
"default to it on first use"). -/
inductive JsonEncoderCls where
  | objectJSONEncoder
deriving DecidableEq

/-- The JSON-decoder classes available in this closed world. -/
inductive JsonDecoderCls where
  | objectJSONDecoder
deriving DecidableEq

/-- `Transcoder.StoredEvent`: the immutable four-field stored record. -/
structure StoredEvent where
  event_id : PyVal
  stored_entity_id : String
  event_topic : String
  event_attrs : EventAttrs

/-- The `Transcoder`'s configuration state: the two class attributes
(`serialize_without_json`, `serialize_with_uuid1`, defaulting to `False`
and `True`) and the four constructor-injected fields. -/
structure Transcoder where
  serialize_without_json : Bool
  serialize_with_uuid1 : Bool
  json_encoder_cls : Option JsonEncoderCls
  json_decoder_cls : Option JsonDecoderCls
  cipher : Option Cipher
  always_encrypt : Bool

/-- `Transcoder.serialize(domain_event)`.  The model is pure: the fresh
randomness `uuid.uuid4().hex` consumes in random-token mode is passed in
as `uuid4_hex`, and the method's assignment to `self.json_encoder_cls`
(source lines 74-75) is returned as the updated transcoder in the second
component.  Line 59 copies the event's `__dict__`, so the caller's event
is never mutated (immediate in a pure model). -/
def Transcoder.serialize (t : Transcoder) (uuid4_hex : String) (e : DomainEventObj) :
    Except PyErr StoredEvent × Transcoder :=
  -- Lines 62-65: get, or make, the domain event ID.
  match (if t.serialize_with_uuid1 then
          match popKeyF e.attrs "domain_event_id" with
          | some (v, rest) => Except.ok (v, rest)
          | Option.none => Except.error (PyErr.keyError "domain_event_id")
         else Except.ok (.str uuid4_hex, e.attrs) :
          Except PyErr (PyVal × PyFields)) with
  | .error err => (.error err, t)
  | .ok (event_id, event_attrs) =>
    -- Lines 68-69: stored entity ID and topic.
    match id_prefix_from_event e with
    | .error err => (.error err, t)
    | .ok id_pre =>
      match getKeyF e.attrs "entity_id" with
      | Option.none => (.error (.attributeError msg_no_entity_id), t)
      | some ent =>
        let stored_entity_id := make_stored_entity_id id_pre ent
        let event_topic := topic_from_domain_class e.cls
        -- Lines 72-82: JSON-encode and optionally encrypt.
        if t.serialize_without_json = false then
          let enc := some (t.json_encoder_cls.getD JsonEncoderCls.objectJSONEncoder)
          let t2 := { t with json_encoder_cls := enc }
          let doc := json_dumps (.dict event_attrs)
          if t.always_encrypt || e.cls.alwaysEncrypt then
            match t.cipher with
            | Option.none => (.error (.valueError msg_cant_encrypt), t2)
            | some c =>
              (.ok ⟨event_id, stored_entity_id, event_topic, .text (c.encrypt doc)⟩, t2)
          else
            (.ok ⟨event_id, stored_entity_id, event_topic, .text doc⟩, t2)
        else
          (.ok ⟨event_id, stored_entity_id, event_topic, .raw event_attrs⟩, t)

/-- `Transcoder.deserialize(stored_event)`.  The `assert isinstance`
on line 96 holds by typing.  The assignment to `self.json_decoder_cls`
(source lines 111-112) is returned as the updated transcoder.  Applying
`cipher.decrypt` or `json.loads` to a value of the wrong runtime type
(a dict where a str is due, or conversely) raises `TypeError` in Python
and is modelled as such. -/
def Transcoder.deserialize (t : Transcoder) (env : PyEnv) (s : StoredEvent) :
    Except PyErr DomainEventObj × Transcoder :=
  -- Line 99: resolve the event class from the topic.
  match resolve_domain_topic env s.event_topic with
  | .error e => (.error e, t)
  | .ok event_class =>
    -- Lines 101-105: the two class checks.
    if event_class.isType = false then
      (.error (.valueError (msg_not_type event_class.reprStr)), t)
    else if event_class.isDomainEvent = false then
      (.error (.valueError (msg_not_domain_event event_class.reprStr)), t)
    else
      -- Lines 108-119: optional decryption, then JSON decode.
      let step : Except PyErr PyVal × Transcoder :=
        if t.serialize_without_json = false then
          let dec := some (t.json_decoder_cls.getD JsonDecoderCls.objectJSONDecoder)
          let t2 := { t with json_decoder_cls := dec }
          if t.always_encrypt || event_class.alwaysEncrypt then
            match t.cipher with
            | Option.none => (.error (.valueError msg_cant_decrypt), t2)
            | some c =>
              match s.event_attrs with
              | .text j => (json_loadsVal env (c.decrypt j), t2)
              | .raw _ => (.error (.typeError "decrypt argument must be str"), t2)
          else
            match s.event_attrs with
            | .text j => (json_loadsVal env j, t2)
            | .raw _ => (.error (.typeError "the JSON object must be str, bytes or bytearray"), t2)
        else
          match s.event_attrs with
          | .raw d => (.ok (.dict d), t)
          | .text _ => (.error (.typeError "str object does not support item assignment"), t)
      match step with
      | (.error e, t2) => (.error e, t2)
      | (.ok ea, t2) =>
        -- Lines 122-123: set the domain event ID under uuid1 mode (an
        -- item assignment, so the decoded payload must be a dict; the
        -- `__dict__.update` on line 128 requires a mapping as well).
        match (if t.serialize_with_uuid1 then
                match ea with
                | .dict d => Except.ok (dictSetF d "domain_event_id" s.event_id)
                | _ => Except.error (PyErr.typeError "object does not support item assignment")
               else
                match ea with
                | .dict d => Except.ok d
                | _ => Except.error (PyErr.typeError "update argument must be a mapping") :
                Except PyErr PyFields) with
        | .error e => (.error e, t2)
        | .ok d =>
          -- Lines 126-131: `object.__new__` then `__dict__.update`; only
          -- `TypeError` is caught and wrapped, so the `AttributeError` a
          -- `__slots__`-like instance raises from `__dict__` escapes.
          if event_class.newRaisesTypeError then
            (.error (.valueError (msg_unable s.event_topic (.dict d))), t2)
          else if event_class.hasSlots then
            (.error (.attributeError msg_no_dict), t2)
          else
            (.ok ⟨event_class, d⟩, t2)

/-! ### The JSON-native value domain

`nativeOk` carves out the attribute values on which the stdlib JSON layer
is the identity: strings, ints, bools, `None`, and nested lists/dicts
thereof, with every dict canonical (key-sorted) and free of the decoder's
reserved tag keys. -/

/-- Does the dict trip none of `from_jsonable`'s reserved-tag guards?
(The class tag only fires when `__class__` and `__module__` are both
present.) -/
def noReservedB (d : PyFields) : Bool :=
  !hasKeyF d "__ndarray__"
    && !(hasKeyF d "__class__" && hasKeyF d "__module__")
    && !hasKeyF d "ISO8601_datetime"
    && !hasKeyF d "ISO8601_date"

mutual
/-- JSON-native values: untouched by encoder hooks and decoder hooks. -/
def nativeOk : PyVal → Bool
  | .str _ => true
  | .int _ => true
  | .bool _ => true
  | .none => true
  | .list xs => nativeOkList xs
  | .dict d => keysSortedF d && noReservedB d && nativeOkFields d
  | .datetime _ => false
  | .date _ _ _ => false
  | .ndarray _ => false
  | .obj _ _ _ => false

/-- `nativeOk` on every element. -/
def nativeOkList : PyList → Bool
  | .nil => true
  | .cons v tl => nativeOk v && nativeOkList tl

/-- `nativeOk` on every value. -/
def nativeOkFields : PyFields → Bool
  | .nil => true
  | .cons _ v tl => nativeOk v && nativeOkFields tl
end

/-! ### Order lemmas -/

theorem charsLt_asymm : ∀ a b : List Char, charsLt a b = true → charsLt b a = false := by
  intro a
  induction a with
  | nil => intro b _; cases b <;> simp [charsLt]
  | cons c cs ih =>
    intro b h
    cases b with
    | nil => simp [charsLt] at h
    | cons c2 cs2 =>
      simp only [charsLt] at h ⊢
      split at h
      · next hlt => simp [Nat.lt_asymm hlt, Nat.ne_of_gt hlt, if_neg]; omega
      · next hnlt =>
        split at h
        · exact absurd h (by simp)
        · next hnlt2 =>
          simp only [hnlt2, if_neg, hnlt]
          exact ih cs2 h

theorem strLt_asymm {a b : String} (h : strLt a b = true) : strLt b a = false :=
  charsLt_asymm a.data b.data h

theorem charsLt_irrefl : ∀ a : List Char, charsLt a a = false := by
  intro a
  induction a with
  | nil => simp [charsLt]
  | cons c cs ih => simp [charsLt, ih]

theorem strLt_ne {a b : String} (h : strLt a b = true) : a ≠ b := by
  intro he; subst he
  rw [strLt, charsLt_irrefl] at h
  exact absurd h (by simp)

/-! ### Sorting is the identity on canonical objects -/

/-- Every key of a JSON object strictly above `k`. -/
def keysAboveJ (k : String) : JFields → Bool
  | .nil => true
  | .cons k2 _ tl => strLt k k2 && keysAboveJ k tl

/-- Key-sorted JSON object fields. -/
def keysSortedJ : JFields → Bool
  | .nil => true
  | .cons k _ tl => keysAboveJ k tl && keysSortedJ tl

theorem keysAboveJ_dumpsFields (k : String) (d : PyFields)
    (h : keysAboveF k d = true) : keysAboveJ k (json_dumpsFields d) = true := by
  cases d with
  | nil => simp [json_dumpsFields, keysAboveJ]
  | cons k2 v tl =>
    simp only [keysAboveF, Bool.and_eq_true] at h
    simp [json_dumpsFields, keysAboveJ, h.1, keysAboveJ_dumpsFields k tl h.2]

theorem keysSortedJ_dumpsFields (d : PyFields)
    (h : keysSortedF d = true) : keysSortedJ (json_dumpsFields d) = true := by
  cases d with
  | nil => simp [json_dumpsFields, keysSortedJ]
  | cons k v tl =>
    simp only [keysSortedF, Bool.and_eq_true] at h
    simp [json_dumpsFields, keysSortedJ, keysAboveJ_dumpsFields k tl h.1,
      keysSortedJ_dumpsFields tl h.2]

theorem insertFieldJ_above (k : String) (v : JVal) (l : JFields)
    (h : keysAboveJ k l = true) : insertFieldJ k v l = .cons k v l := by
  cases l with
  | nil => simp [insertFieldJ]
  | cons k2 v2 tl =>
    simp only [keysAboveJ, Bool.and_eq_true] at h
    simp [insertFieldJ, strLt_asymm h.1]

theorem sortFieldsJ_sorted_id (l : JFields) (h : keysSortedJ l = true) :
    sortFieldsJ l = l := by
  cases l with
  | nil => simp [sortFieldsJ]
  | cons k v tl =>
    simp only [keysSortedJ, Bool.and_eq_true] at h
    rw [sortFieldsJ, sortFieldsJ_sorted_id tl h.2, insertFieldJ_above k v tl h.1]

/-! ### Pass-through of untagged dicts, and the stdlib round trip -/

theorem from_jsonable_noReserved (env : PyEnv) (d : PyFields)
    (h : noReservedB d = true) : from_jsonable env d = .ok (.dict d) := by
  simp only [noReservedB, Bool.and_eq_true, Bool.not_eq_true',
    Bool.and_eq_false_iff] at h
  obtain ⟨⟨⟨h1, h2⟩, h3⟩, h4⟩ := h
  rw [from_jsonable, from_jsonableF', h1, h3, h4]
  rcases h2 with h2 | h2 <;> simp [h2]

mutual
theorem json_loads_dumps_val (env : PyEnv) (v : PyVal) (h : nativeOk v = true) :
    json_loadsVal env (json_dumps v) = .ok v := by
  cases v with
  | str s => rfl
  | int n => rfl
  | bool b => rfl
  | none => rfl
  | list xs =>
    rw [nativeOk] at h
    rw [json_dumps, json_loadsVal, json_loads_dumps_list env xs h]
  | dict d =>
    rw [nativeOk] at h
    simp only [Bool.and_eq_true] at h
    obtain ⟨⟨hs, hr⟩, hf⟩ := h
    rw [json_dumps, json_loadsVal,
      sortFieldsJ_sorted_id (json_dumpsFields d) (keysSortedJ_dumpsFields d hs),
      json_loads_dumps_fields env d hf]
    exact from_jsonable_noReserved env d hr
  | datetime iso => rw [nativeOk] at h; exact absurd h (by simp)
  | date y m dd => rw [nativeOk] at h; exact absurd h (by simp)
  | ndarray buf => rw [nativeOk] at h; exact absurd h (by simp)
  | obj mo q a => rw [nativeOk] at h; exact absurd h (by simp)

theorem json_loads_dumps_list (env : PyEnv) (xs : PyList) (h : nativeOkList xs = true) :
    json_loadsList env (json_dumpsList xs) = .ok xs := by
  cases xs with
  | nil => rfl
  | cons v tl =>
    rw [nativeOkList] at h
    simp only [Bool.and_eq_true] at h
    rw [json_dumpsList, json_loadsList, json_loads_dumps_val env v h.1,
      json_loads_dumps_list env tl h.2]

theorem json_loads_dumps_fields (env : PyEnv) (d : PyFields) (h : nativeOkFields d = true) :
    json_loadsFields env (json_dumpsFields d) = .ok d := by
  cases d with
  | nil => rfl
  | cons k v tl =>
    rw [nativeOkFields] at h
    simp only [Bool.and_eq_true] at h
    rw [json_dumpsFields, json_loadsFields, json_loads_dumps_val env v h.1,
      json_loads_dumps_fields env tl h.2]
end

/-! ### Pop / set inverse on canonical dicts -/

theorem popKeyF_mem_above (tl : PyFields) (k1 k : String) (x : PyVal × PyFields)
    (ha : keysAboveF k1 tl = true) (hp : popKeyF tl k = some x) :
    strLt k1 k = true := by
  cases tl with
  | nil => rw [popKeyF] at hp; exact absurd hp (by simp)
  | cons k2 v2 tl2 =>
    rw [keysAboveF, Bool.and_eq_true] at ha
    rw [popKeyF] at hp
    split at hp
    · next he => exact he ▸ ha.1
    · cases hrec : popKeyF tl2 k with
      | none => rw [hrec] at hp; exact absurd hp (by simp)
      | some y => exact popKeyF_mem_above tl2 k1 k y ha.2 hrec

theorem dictSetF_popKeyF (d : PyFields) (k : String) (v : PyVal) (rest : PyFields)
    (hs : keysSortedF d = true) (hp : popKeyF d k = some (v, rest)) :
    dictSetF rest k v = d := by
  cases d with
  | nil => rw [popKeyF] at hp; exact absurd hp (by simp)
  | cons k1 v1 tl =>
    rw [keysSortedF, Bool.and_eq_true] at hs
    rw [popKeyF] at hp
    split at hp
    · next he =>
      injection hp with hp
      injection hp with hv hrest
      subst he; subst hv; subst hrest
      cases tl with
      | nil => rfl
      | cons k2 v2 tl2 =>
        rw [keysAboveF, Bool.and_eq_true] at hs
        have h1 := hs.1.1
        rw [dictSetF, if_neg (strLt_ne h1), if_pos h1]
    · next hne =>
      cases hrec : popKeyF tl k with
      | none => rw [hrec] at hp; exact absurd hp (by simp)
      | some y =>
        obtain ⟨v2, rest2⟩ := y
        rw [hrec] at hp
        injection hp with hp
        injection hp with hv hrest
        subst hv
        have hlt : strLt k1 k = true := popKeyF_mem_above tl k1 k _ hs.1 hrec
        have hne2 : k ≠ k1 := fun he => strLt_ne hlt he.symm
        subst hrest
        rw [dictSetF, if_neg hne2,
          if_neg (by rw [strLt_asymm hlt]; exact fun h => absurd h (by simp)),
          dictSetF_popKeyF tl k _ rest2 hs.2 hrec]

/-! ## Claim theorems -/

/-- **C1.**  For every domain event of the event family — uuid1 identifier
mode with the `domain_event_id` attribute present, an `entity_id`
attribute, a canonical attribute bag of JSON-native values, a well-behaved
`DomainEvent` subclass whose topic resolves back to it —
`deserialize(serialize(e))` returns a new object whose attribute bag
equals `e`'s attribute bag attribute-for-attribute, the identifier field
included, both when encryption is off and when it is on with a cipher
whose decrypt inverts its encrypt. -/
theorem roundtrip_preserves_attrs
    (t : Transcoder) (env : PyEnv) (e : DomainEventObj) (u : String)
    (eid ent : PyVal) (rest : PyFields)
    (hmode : t.serialize_without_json = false)
    (huuid : t.serialize_with_uuid1 = true)
    (hpop : popKeyF e.attrs "domain_event_id" = some (eid, rest))
    (hent : getKeyF e.attrs "entity_id" = some ent)
    (hsorted : keysSortedF e.attrs = true)
    (hnative : nativeOk (.dict rest) = true)
    (hty : e.cls.isType = true) (hde : e.cls.isDomainEvent = true)
    (hnew : e.cls.newRaisesTypeError = false) (hslots : e.cls.hasSlots = false)
    (hres : env.resolveTopic (topic_from_domain_class e.cls) = some e.cls)
    (henc : (t.always_encrypt || e.cls.alwaysEncrypt) = true →
      ∃ c, t.cipher = some c ∧ ∀ j, c.decrypt (c.encrypt j) = j) :
    ∃ r : StoredEvent, (Transcoder.serialize t u e).1 = .ok r ∧
      (Transcoder.deserialize t env r).1 = .ok ⟨e.cls, e.attrs⟩ := by
  have hset : dictSetF rest "domain_event_id" eid = e.attrs :=
    dictSetF_popKeyF e.attrs "domain_event_id" eid rest hsorted hpop
  cases hb : (t.always_encrypt || e.cls.alwaysEncrypt) with
  | false =>
    refine ⟨⟨eid, make_stored_entity_id ((splitChar e.cls.qualname (Char.ofNat 46)).headD "") ent,
      topic_from_domain_class e.cls, .text (json_dumps (.dict rest))⟩, ?_, ?_⟩
    · simp only [Transcoder.serialize, huuid, hmode, hpop, hent,
        id_prefix_from_event, id_prefix_from_event_class, hde, hb,
        if_true, if_false, Bool.false_eq_true, ite_false, ite_true]
    · simp only [Transcoder.deserialize, resolve_domain_topic, hres, hty, hde, hmode,
        hb, huuid, json_loads_dumps_val env (.dict rest) hnative, hset, hnew, hslots,
        Bool.true_eq_false, Bool.false_eq_true, if_true, if_false, ite_false, ite_true]
  | true =>
    obtain ⟨c, hc, hinv⟩ := henc hb
    refine ⟨⟨eid, make_stored_entity_id ((splitChar e.cls.qualname (Char.ofNat 46)).headD "") ent,
      topic_from_domain_class e.cls, .text (c.encrypt (json_dumps (.dict rest)))⟩, ?_, ?_⟩
    · simp only [Transcoder.serialize, huuid, hmode, hpop, hent,
        id_prefix_from_event, id_prefix_from_event_class, hde, hb, hc,
        if_true, if_false, Bool.false_eq_true, ite_false, ite_true]
    · simp only [Transcoder.deserialize, resolve_domain_topic, hres, hty, hde, hmode,
        hb, hc, huuid, hinv, json_loads_dumps_val env (.dict rest) hnative, hset, hnew, hslots,
        Bool.true_eq_false, Bool.false_eq_true, if_true, if_false, ite_false, ite_true]

/-! ### Concrete fixtures for witnesses and counterexamples -/

/-- A well-behaved domain-event class. -/
def OrderPlacedCls : ClassSpec :=
  { module := "m", qualname := "OrderPlaced", reprStr := "<class m.OrderPlaced>",
    alwaysEncrypt := false, isType := true, isDomainEvent := true,
    newRaisesTypeError := false, hasSlots := false,
    construct := fun _ => .error (.typeError "takes no arguments") }

/-- An environment resolving exactly `OrderPlacedCls`'s topic. -/
def fixtureEnv : PyEnv :=
  { resolveTopic := fun s => if s = "m#OrderPlaced" then some OrderPlacedCls else Option.none,
    classes := fun _ _ => Option.none }

/-- A concrete event: identifier, entity id and one payload attribute. -/
def fixtureEvent : DomainEventObj :=
  { cls := OrderPlacedCls,
    attrs := .cons "domain_event_id" (.str "id1")
      (.cons "entity_id" (.str "ord-1") (.cons "total" (.int 19) .nil)) }

/-- The payload attributes of `fixtureEvent` after the identifier pop. -/
def fixtureRest : PyFields :=
  .cons "entity_id" (.str "ord-1") (.cons "total" (.int 19) .nil)

/-- A cipher whose decrypt inverts its encrypt. -/
def invCipher : Cipher := { encrypt := fun j => j, decrypt := fun j => j }

/-- Default-configuration transcoder with an always-encrypt flag and the
inverting cipher. -/
def encTranscoder : Transcoder :=
  { serialize_without_json := false, serialize_with_uuid1 := true,
    json_encoder_cls := Option.none, json_decoder_cls := Option.none,
    cipher := some invCipher, always_encrypt := true }

/-- Witness for C1 at the concrete fixtures (encryption on, inverting
cipher): the fixture event serializes to a concrete record which
deserializes back to its exact attribute bag. -/
theorem roundtrip_preserves_attrs_witness :
    popKeyF fixtureEvent.attrs "domain_event_id" = some (.str "id1", fixtureRest) ∧
    nativeOk (.dict fixtureRest) = true ∧
    (Transcoder.serialize encTranscoder "u" fixtureEvent).1
      = .ok { event_id := .str "id1", stored_entity_id := "OrderPlaced::ord-1",
              event_topic := "m#OrderPlaced",
              event_attrs := .text (invCipher.encrypt (json_dumps (.dict fixtureRest))) } ∧
    (Transcoder.deserialize encTranscoder fixtureEnv
        { event_id := .str "id1", stored_entity_id := "OrderPlaced::ord-1",
          event_topic := "m#OrderPlaced",
          event_attrs := .text (invCipher.encrypt (json_dumps (.dict fixtureRest))) }).1
      = .ok ⟨OrderPlacedCls, fixtureEvent.attrs⟩ := by
  obtain ⟨r, h1, h2⟩ :=
    roundtrip_preserves_attrs encTranscoder fixtureEnv fixtureEvent "u"
      (.str "id1") (.str "ord-1") fixtureRest
      rfl rfl rfl rfl rfl rfl rfl rfl rfl rfl rfl
      (fun _ => ⟨invCipher, rfl, fun _ => rfl⟩)
  have hr : (Except.ok r : Except PyErr StoredEvent)
      = .ok { event_id := .str "id1", stored_entity_id := "OrderPlaced::ord-1",
              event_topic := "m#OrderPlaced",
              event_attrs := .text (invCipher.encrypt (json_dumps (.dict fixtureRest))) } := by
    rw [← h1]; rfl
  injection hr with hr
  subst hr
  exact ⟨rfl, rfl, h1, h2⟩

/-- **C2 (amended).**  In JSON mode (`serialize_without_json = False`),
whenever `serialize` succeeds on an event whose class sets
`always_encrypt` (or under a transcoder configured to always encrypt),
the `event_attrs` of the returned stored record is exactly the cipher's
`encrypt` output on the JSON encoding of the popped attribute bag — never
the cleartext encoding.  (In pass-through mode the entire encode-and-
encrypt block is skipped, so the payload is the raw cleartext dict; see
the counterexample.) -/
theorem json_mode_always_encrypt_payload_encrypted
    (t : Transcoder) (e : DomainEventObj) (u : String) (c : Cipher)
    (eid : PyVal) (rest : PyFields) (r : StoredEvent)
    (hmode : t.serialize_without_json = false)
    (huuid : t.serialize_with_uuid1 = true)
    (hpop : popKeyF e.attrs "domain_event_id" = some (eid, rest))
    (hflag : (t.always_encrypt || e.cls.alwaysEncrypt) = true)
    (hc : t.cipher = some c)
    (hser : (Transcoder.serialize t u e).1 = .ok r) :
    r.event_attrs = .text (c.encrypt (json_dumps (.dict rest))) := by
  simp only [Transcoder.serialize, huuid, hmode, hpop, hflag, hc,
    if_true, if_false, Bool.false_eq_true, ite_false, ite_true] at hser
  split at hser
  · exact absurd hser (by simp)
  · split at hser
    · exact absurd hser (by simp)
    · simp only [Except.ok.injEq] at hser
      rw [← hser]

/-- Counterexample to C2 as stated: a transcoder in pass-through
(`serialize_without_json`) mode with `always_encrypt = True` and a cipher
configured; `serialize` succeeds and the stored payload is the raw
cleartext attribute dict — the cipher is never invoked. -/
def markCipher : Cipher :=
  { encrypt := fun _ => .str "CIPHERTEXT", decrypt := fun j => j }

/-- Pass-through transcoder, configured to always encrypt, cipher
present. -/
def passThroughTranscoder : Transcoder :=
  { serialize_without_json := true, serialize_with_uuid1 := true,
    json_encoder_cls := Option.none, json_decoder_cls := Option.none,
    cipher := some markCipher, always_encrypt := true }

/-- The stored record `encTranscoder` produces for `fixtureEvent`. -/
def fixtureRecordEnc : StoredEvent :=
  { event_id := .str "id1", stored_entity_id := "OrderPlaced::ord-1",
    event_topic := "m#OrderPlaced",
    event_attrs := .text (invCipher.encrypt (json_dumps (.dict fixtureRest))) }

/-- Witness for C2 (amended) at the concrete fixtures. -/
theorem json_mode_always_encrypt_payload_encrypted_witness :
    (Transcoder.serialize encTranscoder "u" fixtureEvent).1 = .ok fixtureRecordEnc ∧
    fixtureRecordEnc.event_attrs = .text (invCipher.encrypt (json_dumps (.dict fixtureRest))) :=
  ⟨rfl,
    json_mode_always_encrypt_payload_encrypted encTranscoder fixtureEvent "u" invCipher
      (.str "id1") fixtureRest fixtureRecordEnc rfl rfl rfl rfl rfl rfl⟩

theorem passthrough_always_encrypt_payload_cleartext :
    (Transcoder.serialize passThroughTranscoder "u" fixtureEvent).1.map StoredEvent.event_attrs
      = .ok (.raw fixtureRest) ∧
    (EventAttrs.raw fixtureRest
      ≠ .text (markCipher.encrypt (json_dumps (.dict fixtureRest)))) :=
  ⟨rfl, by simp⟩

/-- **C3 (amended).**  In the default JSON mode
(`serialize_without_json = False`), calling `serialize` on a domain event
flagged `always_encrypt` (or under any transcoder configured to always
encrypt) with no cipher adapter configured returns the error the spec's
taxonomy names `ConfigurationError` — the source's
`ValueError("Can't encrypt without a cipher")` of line 81 — and returns no
stored record (the `Except` result carries no record, and the method
operates on a copy of the event's `__dict__`, line 59, so the caller's
event is untouched).  The JSON-mode proviso is forced by the source: the
cipher check sits inside `if not self.serialize_without_json`
(lines 72-82), so in pass-through mode `serialize` succeeds with a
cleartext record even though encryption is required and no cipher is
configured — see the counterexample below. -/
theorem serialize_missing_cipher_raises
    (t : Transcoder) (e : DomainEventObj) (u : String)
    (eid : PyVal) (rest : PyFields)
    (hmode : t.serialize_without_json = false)
    (huuid : t.serialize_with_uuid1 = true)
    (hpop : popKeyF e.attrs "domain_event_id" = some (eid, rest))
    (hde : e.cls.isDomainEvent = true)
    (hent : getKeyF e.attrs "entity_id" = some ent)
    (hflag : (t.always_encrypt || e.cls.alwaysEncrypt) = true)
    (hc : t.cipher = Option.none) :
    (Transcoder.serialize t u e).1 = .error (.valueError msg_cant_encrypt) := by
  simp only [Transcoder.serialize, huuid, hmode, hpop, hent, hflag, hc,
    id_prefix_from_event, id_prefix_from_event_class, hde,
    if_true, if_false, Bool.false_eq_true, ite_false, ite_true]

/-- Witness for C3: the always-encrypt fixture transcoder with its cipher
removed refuses to serialize the fixture event. -/
theorem serialize_missing_cipher_raises_witness :
    ({ encTranscoder with cipher := Option.none } : Transcoder).cipher = Option.none ∧
    (Transcoder.serialize { encTranscoder with cipher := Option.none } "u" fixtureEvent).1
      = .error (.valueError msg_cant_encrypt) :=
  ⟨rfl,
    serialize_missing_cipher_raises { encTranscoder with cipher := Option.none }
      fixtureEvent "u" (.str "id1") fixtureRest rfl rfl rfl rfl rfl rfl rfl⟩

/-- A pass-through (`serialize_without_json`) transcoder configured to
always encrypt, with no cipher adapter at all. -/
def passThroughNoCipherTranscoder : Transcoder :=
  { serialize_without_json := true, serialize_with_uuid1 := true,
    json_encoder_cls := Option.none, json_decoder_cls := Option.none,
    cipher := Option.none, always_encrypt := true }

/-- Counterexample to C3 as stated: the claim quantifies over every
transcoder configured to always encrypt, with no mode restriction — but in
pass-through mode the encode-and-encrypt block (source lines 72-82) is
skipped entirely, so `serialize` on an `always_encrypt` event with no
cipher configured raises nothing and returns a full cleartext stored
record, not the promised `ConfigurationError`-and-no-record. -/
theorem serialize_passthrough_no_cipher_succeeds :
    (Transcoder.serialize passThroughNoCipherTranscoder "u" fixtureEvent).1
      = .ok { event_id := .str "id1", stored_entity_id := "OrderPlaced::ord-1",
              event_topic := "m#OrderPlaced", event_attrs := .raw fixtureRest } ∧
    ((.ok { event_id := .str "id1", stored_entity_id := "OrderPlaced::ord-1",
            event_topic := "m#OrderPlaced", event_attrs := .raw fixtureRest }
        : Except PyErr StoredEvent)
      ≠ .error (.valueError msg_cant_encrypt)) :=
  ⟨rfl, by simp⟩

/-- The two class-check messages of `deserialize` differ for every
`repr`, because their fixed prefixes have different lengths. -/
theorem msg_not_type_ne_not_domain_event (r : String) :
    msg_not_type r ≠ msg_not_domain_event r := by
  intro h
  have hl := congrArg String.length h
  rw [msg_not_type, msg_not_domain_event, String.length_append, String.length_append] at hl
  have h1 : ("Event class is not a type: " : String).length = 27 := rfl
  have h2 : ("Event class is not a DomainEvent: " : String).length = 34 := rfl
  rw [h1, h2] at hl
  omega

/-- **C4 (amended).**  `deserialize` surfaces three distinct, reportable
failure modes, none silently coerced — but not all under one exception
class: when the topic's module/type cannot be located, the (spec-modelled)
topic resolver fails with the spec's `TypeResolutionError`; when the
resolved symbol is not a type, and when the resolved type is not a
`DomainEvent`, the source raises the generic `ValueError` (lines 101-105),
with distinct messages.  The three error values are pairwise distinct. -/
theorem deserialize_resolution_failures_distinct
    (t : Transcoder) (env : PyEnv) (s : StoredEvent) (cls : ClassSpec) :
    (env.resolveTopic s.event_topic = Option.none →
      (Transcoder.deserialize t env s).1 = .error (.typeResolutionError s.event_topic)) ∧
    (env.resolveTopic s.event_topic = some cls → cls.isType = false →
      (Transcoder.deserialize t env s).1 = .error (.valueError (msg_not_type cls.reprStr))) ∧
    (env.resolveTopic s.event_topic = some cls → cls.isType = true →
        cls.isDomainEvent = false →
      (Transcoder.deserialize t env s).1
        = .error (.valueError (msg_not_domain_event cls.reprStr))) ∧
    (PyErr.typeResolutionError s.event_topic ≠ .valueError (msg_not_type cls.reprStr)) ∧
    (PyErr.typeResolutionError s.event_topic
      ≠ .valueError (msg_not_domain_event cls.reprStr)) ∧
    (PyErr.valueError (msg_not_type cls.reprStr)
      ≠ .valueError (msg_not_domain_event cls.reprStr)) := by
  refine ⟨?_, ?_, ?_, by simp, by simp, ?_⟩
  · intro hres
    simp only [Transcoder.deserialize, resolve_domain_topic, hres]
  · intro hres hty
    simp only [Transcoder.deserialize, resolve_domain_topic, hres, hty, ite_true]
  · intro hres hty hde
    simp only [Transcoder.deserialize, resolve_domain_topic, hres, hty, hde,
      Bool.true_eq_false, if_false, ite_true, ite_false]
  · simp only [ne_eq, PyErr.valueError.injEq]
    exact msg_not_type_ne_not_domain_event cls.reprStr

/-- A resolvable topic naming a loaded symbol that is not a type. -/
def notATypeCls : ClassSpec :=
  { module := "m", qualname := "f", reprStr := "<function f>",
    alwaysEncrypt := false, isType := false, isDomainEvent := false,
    newRaisesTypeError := false, hasSlots := false,
    construct := fun _ => .error (.typeError "not callable") }

/-- Environment resolving `m#f` to the non-type. -/
def notATypeEnv : PyEnv :=
  { resolveTopic := fun s => if s = "m#f" then some notATypeCls else Option.none,
    classes := fun _ _ => Option.none }

/-- A stored record whose topic names the non-type. -/
def notATypeRecord : StoredEvent :=
  { event_id := .str "id1", stored_entity_id := "X::1", event_topic := "m#f",
    event_attrs := .raw .nil }

/-- Counterexample to C4 as stated: on a record whose topic resolves to a
symbol that is not a type, `deserialize` raises the generic Python
`ValueError` (source line 102), not a `TypeResolutionError`. -/
theorem deserialize_nontype_raises_generic_valueerror :
    (Transcoder.deserialize encTranscoder notATypeEnv notATypeRecord).1
      = .error (.valueError (msg_not_type "<function f>")) ∧
    (PyErr.valueError (msg_not_type "<function f>")
      ≠ .typeResolutionError "m#f") :=
  ⟨rfl, by simp⟩

/-- Witness for C4 (amended): all three failure modes exercised on
concrete records against `notATypeEnv` extended with a non-DomainEvent
type; the first clause at an unresolvable topic. -/
def notAnEventCls : ClassSpec :=
  { module := "m", qualname := "Plain", reprStr := "<class m.Plain>",
    alwaysEncrypt := false, isType := true, isDomainEvent := false,
    newRaisesTypeError := false, hasSlots := false,
    construct := fun _ => .ok .nil }

/-- Environment for the C4 witness: one non-type, one non-DomainEvent
type, nothing else. -/
def c4Env : PyEnv :=
  { resolveTopic := fun s =>
      if s = "m#f" then some notATypeCls
      else if s = "m#Plain" then some notAnEventCls
      else Option.none,
    classes := fun _ _ => Option.none }

theorem deserialize_resolution_failures_distinct_witness :
    c4Env.resolveTopic "nosuch#T" = Option.none ∧
    (Transcoder.deserialize encTranscoder c4Env
        { notATypeRecord with event_topic := "nosuch#T" }).1
      = .error (.typeResolutionError "nosuch#T") ∧
    (Transcoder.deserialize encTranscoder c4Env
        { notATypeRecord with event_topic := "m#Plain" }).1
      = .error (.valueError (msg_not_domain_event "<class m.Plain>")) :=
  ⟨rfl,
    (deserialize_resolution_failures_distinct encTranscoder c4Env
      { notATypeRecord with event_topic := "nosuch#T" } notAnEventCls).1 rfl,
    (deserialize_resolution_failures_distinct encTranscoder c4Env
      { notATypeRecord with event_topic := "m#Plain" } notAnEventCls).2.2.1 rfl rfl rfl⟩

/-- **C5 (amended).**  `deserialize` reconstructs via `object.__new__`
plus direct `__dict__` assignment — the theorem holds for every
`construct` field, so the resolved type's validating constructor is never
invoked — and when `object.__new__` raises `TypeError` (a builtin-backed
type) the failure is wrapped as the source's
`ValueError("Unable to instantiate class '<topic>' with data '<attrs>'")`,
carrying the topic and the offending attribute bag.  But the wrapper
catches only `TypeError` (line 129): for a fixed-attribute
(`__slots__`-like) type without a `__dict__`, the `AttributeError` raised
by the attribute assignment escapes in its own form (see the
counterexample). -/
theorem deserialize_bypasses_constructor_and_wraps_typeerror
    (t : Transcoder) (env : PyEnv) (s : StoredEvent) (cls : ClassSpec)
    (j : JVal) (d0 : PyFields)
    (hres : env.resolveTopic s.event_topic = some cls)
    (hty : cls.isType = true) (hde : cls.isDomainEvent = true)
    (hmode : t.serialize_without_json = false)
    (huuid : t.serialize_with_uuid1 = true)
    (hflag : (t.always_encrypt || cls.alwaysEncrypt) = false)
    (hpayload : s.event_attrs = .text j)
    (hloads : json_loadsVal env j = .ok (.dict d0)) :
    (cls.newRaisesTypeError = false → cls.hasSlots = false →
      (Transcoder.deserialize t env s).1
        = .ok ⟨cls, dictSetF d0 "domain_event_id" s.event_id⟩) ∧
    (cls.newRaisesTypeError = true →
      (Transcoder.deserialize t env s).1
        = .error (.valueError (msg_unable s.event_topic
            (.dict (dictSetF d0 "domain_event_id" s.event_id))))) ∧
    (cls.newRaisesTypeError = false → cls.hasSlots = true →
      (Transcoder.deserialize t env s).1 = .error (.attributeError msg_no_dict)) := by
  refine ⟨?_, ?_, ?_⟩ <;> intro h1 <;> try intro h2
  · simp only [Transcoder.deserialize, resolve_domain_topic, hres, hty, hde, hmode,
      hflag, hpayload, hloads, huuid, h1, h2,
      Bool.true_eq_false, Bool.false_eq_true, if_true, if_false, ite_false, ite_true]
  · simp only [Transcoder.deserialize, resolve_domain_topic, hres, hty, hde, hmode,
      hflag, hpayload, hloads, huuid, h1,
      Bool.true_eq_false, Bool.false_eq_true, if_true, if_false, ite_false, ite_true]
  · simp only [Transcoder.deserialize, resolve_domain_topic, hres, hty, hde, hmode,
      hflag, hpayload, hloads, huuid, h1, h2,
      Bool.true_eq_false, Bool.false_eq_true, if_true, if_false, ite_false, ite_true]

/-- A fixed-attribute (`__slots__`-like) domain-event class: instances
have no `__dict__`. -/
def slotsCls : ClassSpec :=
  { module := "m", qualname := "Slotted", reprStr := "<class m.Slotted>",
    alwaysEncrypt := false, isType := true, isDomainEvent := true,
    newRaisesTypeError := false, hasSlots := true,
    construct := fun _ => .error (.typeError "takes no arguments") }

/-- A builtin-backed domain-event class: `object.__new__` on it raises
`TypeError`. -/
def builtinBackedCls : ClassSpec :=
  { module := "m", qualname := "Tupled", reprStr := "<class m.Tupled>",
    alwaysEncrypt := false, isType := true, isDomainEvent := true,
    newRaisesTypeError := true, hasSlots := false,
    construct := fun _ => .error (.typeError "takes no arguments") }

/-- Environment for the C5 theorems. -/
def c5Env : PyEnv :=
  { resolveTopic := fun s =>
      if s = "m#Slotted" then some slotsCls
      else if s = "m#Tupled" then some builtinBackedCls
      else if s = "m#OrderPlaced" then some OrderPlacedCls
      else Option.none,
    classes := fun _ _ => Option.none }

/-- A plain transcoder: default flags, no cipher, no always-encrypt. -/
def plainTranscoder : Transcoder :=
  { serialize_without_json := false, serialize_with_uuid1 := true,
    json_encoder_cls := Option.none, json_decoder_cls := Option.none,
    cipher := Option.none, always_encrypt := false }

/-- A stored record whose topic names the slots class, with a one-field
payload. -/
def slotsRecord : StoredEvent :=
  { event_id := .str "id1", stored_entity_id := "Slotted::1", event_topic := "m#Slotted",
    event_attrs := .text (json_dumps (.dict (.cons "a" (.int 1) .nil))) }

/-- Counterexample to C5 as stated: on the `__slots__`-like type — the
claim's own example of a type that cannot structurally accept the bag —
the failure escapes as an `AttributeError`, not as the
`ValueError`-with-topic-and-bag the claim promises. -/
theorem deserialize_slots_attributeerror_escapes :
    (Transcoder.deserialize plainTranscoder c5Env slotsRecord).1
      = .error (.attributeError msg_no_dict) ∧
    (PyErr.attributeError msg_no_dict
      ≠ .valueError (msg_unable "m#Slotted"
          (.dict (.cons "a" (.int 1)
            (.cons "domain_event_id" (.str "id1") .nil))))) :=
  ⟨rfl, by simp⟩

/-- Witness for C5 (amended): the success clause on the well-behaved
class and the `TypeError`-wrapping clause on the builtin-backed class. -/
theorem deserialize_bypasses_constructor_witness :
    (Transcoder.deserialize plainTranscoder c5Env
        { slotsRecord with event_topic := "m#OrderPlaced" }).1
      = .ok ⟨OrderPlacedCls,
          .cons "a" (.int 1) (.cons "domain_event_id" (.str "id1") .nil)⟩ ∧
    (Transcoder.deserialize plainTranscoder c5Env
        { slotsRecord with event_topic := "m#Tupled" }).1
      = .error (.valueError (msg_unable "m#Tupled"
          (.dict (.cons "a" (.int 1) (.cons "domain_event_id" (.str "id1") .nil))))) :=
  ⟨(deserialize_bypasses_constructor_and_wraps_typeerror plainTranscoder c5Env
      { slotsRecord with event_topic := "m#OrderPlaced" } OrderPlacedCls
      (json_dumps (.dict (.cons "a" (.int 1) .nil))) (.cons "a" (.int 1) .nil)
      rfl rfl rfl rfl rfl rfl rfl rfl).1 rfl rfl,
   (deserialize_bypasses_constructor_and_wraps_typeerror plainTranscoder c5Env
      { slotsRecord with event_topic := "m#Tupled" } builtinBackedCls
      (json_dumps (.dict (.cons "a" (.int 1) .nil))) (.cons "a" (.int 1) .nil)
      rfl rfl rfl rfl rfl rfl rfl rfl).2.1 rfl⟩

/-- **C6 (amended).**  A plain mapping containing none of the reserved tag
keys (`__ndarray__`, `__class__` together with `__module__`,
`ISO8601_datetime`, `ISO8601_date`) — nested mappings included, in
canonical key order, with JSON-native values — decodes after encoding as
itself (pass-through).  A plain mapping that does contain a reserved tag
key, however, is dispatched to that hook's decoder on key presence alone
and is reinterpreted (or fails), not passed through: see the
counterexample. -/
theorem untagged_mapping_roundtrips (env : PyEnv) (d : PyFields)
    (h : nativeOk (.dict d) = true) :
    json_loadsVal env (json_dumps (.dict d)) = .ok (.dict d) :=
  json_loads_dumps_val env (.dict d) h

/-- Witness for C6 (amended): a nested untagged mapping passes through. -/
theorem untagged_mapping_roundtrips_witness :
    nativeOk (.dict (.cons "ISO8601"
      (.dict (.cons "when" (.str "2020-01-03") .nil)) .nil)) = true ∧
    json_loadsVal fixtureEnv (json_dumps (.dict (.cons "ISO8601"
      (.dict (.cons "when" (.str "2020-01-03") .nil)) .nil)))
      = .ok (.dict (.cons "ISO8601"
          (.dict (.cons "when" (.str "2020-01-03") .nil)) .nil)) :=
  ⟨rfl,
    untagged_mapping_roundtrips fixtureEnv
      (.cons "ISO8601" (.dict (.cons "when" (.str "2020-01-03") .nil)) .nil) rfl⟩

/-- Counterexample to C6 as stated: a plain mapping that happens to carry
the reserved key `ISO8601_date` with an innocent date-shaped string value
is silently reinterpreted by the date hook — decoding after encoding
yields a `date` value, not the original mapping. -/
theorem tagged_mapping_reinterpreted :
    json_loadsVal fixtureEnv (json_dumps (.dict (.cons "ISO8601_date" (.str "2020-01-03") .nil)))
      = .ok (.date 2020 1 3) ∧
    ((.ok (.date 2020 1 3) : Except PyErr PyVal)
      ≠ .ok (.dict (.cons "ISO8601_date" (.str "2020-01-03") .nil))) :=
  ⟨rfl, by simp⟩

/-- **C7.**  The stream key is a pure rendering of its two arguments —
`make_stored_entity_id` returns `'<prefix>::<entity_id>'`, nothing else —
and the prefix `serialize` derives from an event class is determined
solely by the class's outermost qualified-name component, so the
`stored_entity_id` of every record `serialize` emits is determined by
(event type, `entity_id`) alone.  (Determinism across calls and process
restarts is inherent: the embedding shows the computation is a function of
exactly these inputs, matching source lines 233-244, which consult no
other state.) -/
theorem stored_entity_id_deterministic
    (t : Transcoder) (e : DomainEventObj) (u : String) (r : StoredEvent) (ent : PyVal)
    (hent : getKeyF e.attrs "entity_id" = some ent)
    (hser : (Transcoder.serialize t u e).1 = .ok r) :
    (∀ (p : String) (v : PyVal), make_stored_entity_id p v = p ++ "::" ++ pyStr v) ∧
    r.stored_entity_id
      = make_stored_entity_id ((splitChar e.cls.qualname (Char.ofNat 46)).headD "") ent ∧
    (∀ c : ClassSpec, c.isDomainEvent = true →
      id_prefix_from_event_class c = .ok ((splitChar c.qualname (Char.ofNat 46)).headD "")) := by
  refine ⟨fun p v => rfl, ?_, fun c hc => by rw [id_prefix_from_event_class, if_pos hc]⟩
  simp only [Transcoder.serialize, hent] at hser
  split at hser
  · exact absurd hser (by simp)
  · split at hser
    · exact absurd hser (by simp)
    · next id_pre heq =>
      have hpre : id_pre = (splitChar e.cls.qualname (Char.ofNat 46)).headD "" := by
        cases hde2 : e.cls.isDomainEvent with
        | false => simp [id_prefix_from_event, hde2] at heq
        | true =>
          simp only [id_prefix_from_event, id_prefix_from_event_class, hde2,
            if_true, ite_true, Except.ok.injEq] at heq
          exact heq.symm
      subst hpre
      split at hser
      · split at hser
        · split at hser
          · exact absurd hser (by simp)
          · injection hser with h; rw [← h]
        · injection hser with h; rw [← h]
      · injection hser with h; rw [← h]

/-- The stored record `plainTranscoder` produces for `fixtureEvent`. -/
def fixtureRecordPlain : StoredEvent :=
  { event_id := .str "id1", stored_entity_id := "OrderPlaced::ord-1",
    event_topic := "m#OrderPlaced",
    event_attrs := .text (json_dumps (.dict fixtureRest)) }

/-- Witness for C7 at the concrete fixtures: the emitted stream key is
`"OrderPlaced::ord-1"`. -/
theorem stored_entity_id_deterministic_witness :
    (Transcoder.serialize plainTranscoder "u" fixtureEvent).1 = .ok fixtureRecordPlain ∧
    fixtureRecordPlain.stored_entity_id
      = make_stored_entity_id
          ((splitChar OrderPlacedCls.qualname (Char.ofNat 46)).headD "") (.str "ord-1") ∧
    fixtureRecordPlain.stored_entity_id = "OrderPlaced::ord-1" :=
  ⟨rfl,
    (stored_entity_id_deterministic plainTranscoder fixtureEvent "u" fixtureRecordPlain
      (.str "ord-1") rfl rfl).2.1,
    rfl⟩

/-! ### Size and key lemmas for the class-decoder hook -/

theorem hasKeyF_of_popKeyF (d : PyFields) (k : String) (v : PyVal) (rest : PyFields)
    (hp : popKeyF d k = some (v, rest)) : hasKeyF d k = true := by
  cases d with
  | nil => rw [popKeyF] at hp; exact absurd hp (by simp)
  | cons k1 v1 tl =>
    rw [popKeyF] at hp
    rw [hasKeyF]
    split at hp
    · next he => simp [he]
    · cases hrec : popKeyF tl k with
      | none => rw [hrec] at hp; exact absurd hp (by simp)
      | some y => simp [hasKeyF_of_popKeyF tl k y.1 y.2 (by rw [hrec])]

theorem hasKeyF_popKeyF_rest (d : PyFields) (k k2 : String) (v : PyVal) (rest : PyFields)
    (hp : popKeyF d k = some (v, rest)) (hk : hasKeyF rest k2 = true) :
    hasKeyF d k2 = true := by
  cases d with
  | nil => rw [popKeyF] at hp; exact absurd hp (by simp)
  | cons k1 v1 tl =>
    rw [popKeyF] at hp
    rw [hasKeyF]
    split at hp
    · injection hp with hp
      injection hp with hv hrest
      subst hrest
      simp [hk]
    · cases hrec : popKeyF tl k with
      | none => rw [hrec] at hp; exact absurd hp (by simp)
      | some y =>
        obtain ⟨v2, rest2⟩ := y
        rw [hrec] at hp
        injection hp with hp
        injection hp with hv hrest
        subst hrest
        rw [hasKeyF] at hk
        rcases Bool.or_eq_true_iff.mp hk with h | h
        · simp [h]
        · simp [hasKeyF_popKeyF_rest tl k k2 v2 rest2 hrec h]

theorem pySizeVal_pos (v : PyVal) : 1 ≤ pySizeVal v := by
  cases v <;> simp [pySizeVal]

theorem pySize_popKeyF (d : PyFields) (k : String) (v : PyVal) (rest : PyFields)
    (hp : popKeyF d k = some (v, rest)) :
    pySizeFields d = pySizeFields rest + pySizeVal v + 1 := by
  cases d with
  | nil => rw [popKeyF] at hp; exact absurd hp (by simp)
  | cons k1 v1 tl =>
    rw [popKeyF] at hp
    split at hp
    · injection hp with hp
      injection hp with hv hrest
      subst hv; subst hrest
      rw [pySizeFields]
      omega
    · cases hrec : popKeyF tl k with
      | none => rw [hrec] at hp; exact absurd hp (by simp)
      | some y =>
        obtain ⟨v2, rest2⟩ := y
        rw [hrec] at hp
        injection hp with hp
        injection hp with hv hrest
        subst hrest
        rw [← hv]
        have := pySize_popKeyF tl k v2 rest2 hrec
        rw [pySizeFields, pySizeFields, this]
        omega

theorem lengthF_lt_pySizeFields (l : PyFields) : lengthF l < pySizeFields l := by
  cases l with
  | nil => simp [lengthF, pySizeFields]
  | cons k v tl =>
    have h1 := lengthF_lt_pySizeFields tl
    have h2 := pySizeVal_pos v
    rw [lengthF, pySizeFields]
    omega

/-- Attribute values that the fallback loop's re-hook passes through
unchanged: plain strings containing no reserved tag substring. -/
def strNoTags (s : String) : Bool :=
  !strHasSub s "__ndarray__"
    && !(strHasSub s "__class__" && strHasSub s "__module__")
    && !strHasSub s "ISO8601_datetime"
    && !strHasSub s "ISO8601_date"

/-- All values are tagless plain strings. -/
def plainStrFields : PyFields → Bool
  | .nil => true
  | .cons _ (.str s) tl => strNoTags s && plainStrFields tl
  | .cons _ _ _ => false

theorem from_jsonable_valF_str (f : Nat) (env : PyEnv) (s : String)
    (h : strNoTags s = true) :
    from_jsonable_valF (f + 1) env (.str s) = .ok (.str s) := by
  simp only [strNoTags, Bool.and_eq_true, Bool.not_eq_true',
    Bool.and_eq_false_iff] at h
  obtain ⟨⟨⟨h1, h2⟩, h3⟩, h4⟩ := h
  rw [from_jsonable_valF, h1, h3, h4]
  rcases h2 with h2 | h2 <;> simp [h2]

theorem rehookAllF_plain (env : PyEnv) (l : PyFields) (f : Nat)
    (hp : plainStrFields l = true) (hf : lengthF l < f) :
    rehookAllF f env l = .ok l := by
  cases l with
  | nil =>
    cases f with
    | zero => rw [lengthF] at hf; omega
    | succ f2 => rfl
  | cons k v tl =>
    cases f with
    | zero => rw [lengthF] at hf; omega
    | succ f2 =>
      cases v with
      | str s =>
        rw [plainStrFields, Bool.and_eq_true] at hp
        rw [lengthF] at hf
        have hf2 : lengthF tl < f2 := by omega
        have h1 : 1 ≤ f2 := by omega
        obtain ⟨f3, hf3⟩ : ∃ f3, f2 = f3 + 1 := ⟨f2 - 1, by omega⟩
        rw [rehookAllF, hf3, from_jsonable_valF_str f3 env s hp.1,
          ← hf3, rehookAllF_plain env tl f2 hp.2 hf2]
      | int n => exact Bool.noConfusion hp
      | bool b => exact Bool.noConfusion hp
      | none => exact Bool.noConfusion hp
      | list xs => exact Bool.noConfusion hp
      | dict dd => exact Bool.noConfusion hp
      | datetime i => exact Bool.noConfusion hp
      | date y mo dd => exact Bool.noConfusion hp
      | ndarray b => exact Bool.noConfusion hp
      | obj mo q a => exact Bool.noConfusion hp

/-- Dispatch of `from_jsonable` to the class hook when the class tags are
present and the array tag is not. -/
theorem from_jsonableF_to_class (f : Nat) (env : PyEnv) (d : PyFields)
    (hnd : hasKeyF d "__ndarray__" = false)
    (hc : hasKeyF d "__class__" = true) (hm : hasKeyF d "__module__" = true) :
    from_jsonableF' (f + 1) env d = decode_classF f env d := by
  rw [from_jsonableF', hnd, hc, hm]
  simp

/-- **C8 (amended).**  The generic-object fallback encodes a value as a
tagged object carrying exactly its qualified class name and module (see
C10's theorem for the encoding side), and decoding is two-tier: the tags
are popped, the name is resolved to a class, and reconstruction first
calls the class's standard constructor with the decoded keyword
attributes; if that raises — any exception — it falls back to calling the
class's **zero-argument constructor** (`cls()`, not a bare
`object.__new__` instance) and assigning each remaining attribute,
re-passed through the decode hook, directly into the instance's
`__dict__`; whatever attributes the zero-argument constructor itself set
remain (see the counterexample), and if the zero-argument constructor
raises, that failure propagates. -/
theorem decode_class_two_tier
    (env : PyEnv) (d d1 d2 : PyFields) (class_name module_name : String) (cls : ClassSpec)
    (hnd : hasKeyF d "__ndarray__" = false)
    (hpc : popKeyF d "__class__" = some (.str class_name, d1))
    (hpm : popKeyF d1 "__module__" = some (.str module_name, d2))
    (hcl : env.classes module_name class_name = some cls) :
    (∀ attrs, cls.construct d2 = .ok attrs →
      from_jsonable env d = .ok (.obj cls.module cls.qualname attrs)) ∧
    (∀ er a0, cls.construct d2 = .error er → cls.construct .nil = .ok a0 →
        plainStrFields d2 = true →
      from_jsonable env d = .ok (.obj cls.module cls.qualname (dictSetAllF a0 d2))) ∧
    (∀ er er0, cls.construct d2 = .error er → cls.construct .nil = .error er0 →
      from_jsonable env d = .error er0) := by
  have hk1 : hasKeyF d "__class__" = true := hasKeyF_of_popKeyF d _ _ _ hpc
  have hk2 : hasKeyF d "__module__" = true :=
    hasKeyF_popKeyF_rest d _ _ _ _ hpc (hasKeyF_of_popKeyF d1 _ _ _ hpm)
  have hsz1 := pySize_popKeyF d _ _ _ hpc
  have hsz2 := pySize_popKeyF d1 _ _ _ hpm
  rw [pySizeVal] at hsz1 hsz2
  have hlen := lengthF_lt_pySizeFields d2
  obtain ⟨g, hg, hglen⟩ : ∃ g, pySizeFields d = g + 1 ∧ lengthF d2 < g :=
    ⟨pySizeFields d - 1, by omega, by omega⟩
  have hmain : from_jsonable env d = decode_classF (pySizeFields d) env d := by
    rw [from_jsonable, from_jsonableF_to_class (pySizeFields d) env d hnd hk1 hk2]
  obtain ⟨g2, hg2⟩ : ∃ g2, g = g2 + 1 := ⟨g - 1, by omega⟩
  have hstep : decode_classF (pySizeFields d) env d
      = match cls.construct d2 with
        | .ok attrs => .ok (.obj cls.module cls.qualname attrs)
        | .error _ =>
          match cls.construct .nil with
          | .error e => .error e
          | .ok a0 =>
            match rehookAllF g env d2 with
            | .error e => .error e
            | .ok d2x => .ok (.obj cls.module cls.qualname (dictSetAllF a0 d2x)) := by
    rw [hg, decode_classF]
    simp only [hpc, hpm, hcl]
  refine ⟨?_, ?_, ?_⟩
  · intro attrs hcon
    rw [hmain, hstep, hcon]
  · intro er a0 hcon hc0 hplain
    rw [hmain, hstep, hcon, hc0, rehookAllF_plain env d2 g hplain hglen]
  · intro er er0 hcon hc0
    rw [hmain, hstep, hcon, hc0]

/-- A class whose zero-argument constructor succeeds and sets an `extra`
attribute, while any keyword argument raises `TypeError`. -/
def defaultingCls : ClassSpec :=
  { module := "m", qualname := "C", reprStr := "<class m.C>",
    alwaysEncrypt := false, isType := true, isDomainEvent := false,
    newRaisesTypeError := false, hasSlots := false,
    construct := fun d => match d with
      | .nil => .ok (.cons "extra" (.int 7) .nil)
      | _ => .error (.typeError "unexpected keyword argument") }

/-- Environment exposing `defaultingCls` under `m.C`. -/
def defaultingEnv : PyEnv :=
  { resolveTopic := fun _ => Option.none,
    classes := fun mo cl => if mo = "m" && cl = "C" then some defaultingCls else Option.none }

/-- Counterexample to C8 as stated: with `m.C`'s keyword constructor
raising, the fallback is `cls()` — the zero-argument constructor, which
here sets `extra = 7` — not the creation of a bare instance; the decoded
object therefore carries `extra` alongside the stored attribute `a`,
where a bare instance would carry `a` alone. -/
theorem fallback_not_bare_instance :
    json_loadsVal defaultingEnv (.obj (.cons "__class__" (.str "C")
        (.cons "__module__" (.str "m") (.cons "a" (.str "x") .nil))))
      = .ok (.obj "m" "C" (.cons "a" (.str "x") (.cons "extra" (.int 7) .nil))) ∧
    ((.ok (.obj "m" "C" (.cons "a" (.str "x") (.cons "extra" (.int 7) .nil)))
        : Except PyErr PyVal)
      ≠ .ok (.obj "m" "C" (.cons "a" (.str "x") .nil))) :=
  ⟨rfl, by simp⟩

/-- Witness for C8 (amended): both tiers at concrete inputs — tier 1 on a
class accepting its keyword arguments, tier 2 on `defaultingCls`. -/
def acceptingCls : ClassSpec :=
  { module := "m", qualname := "D", reprStr := "<class m.D>",
    alwaysEncrypt := false, isType := true, isDomainEvent := false,
    newRaisesTypeError := false, hasSlots := false,
    construct := fun d => .ok d }

/-- Environment exposing both witness classes. -/
def c8Env : PyEnv :=
  { resolveTopic := fun _ => Option.none,
    classes := fun mo cl =>
      if mo = "m" && cl = "C" then some defaultingCls
      else if mo = "m" && cl = "D" then some acceptingCls
      else Option.none }

theorem decode_class_two_tier_witness :
    from_jsonable c8Env (.cons "__class__" (.str "D")
        (.cons "__module__" (.str "m") (.cons "a" (.str "x") .nil)))
      = .ok (.obj "m" "D" (.cons "a" (.str "x") .nil)) ∧
    from_jsonable c8Env (.cons "__class__" (.str "C")
        (.cons "__module__" (.str "m") (.cons "a" (.str "x") .nil)))
      = .ok (.obj "m" "C" (.cons "a" (.str "x") (.cons "extra" (.int 7) .nil))) :=
  ⟨(decode_class_two_tier c8Env
      (.cons "__class__" (.str "D") (.cons "__module__" (.str "m") (.cons "a" (.str "x") .nil)))
      (.cons "__module__" (.str "m") (.cons "a" (.str "x") .nil))
      (.cons "a" (.str "x") .nil) "D" "m" acceptingCls
      rfl rfl rfl rfl).1 (.cons "a" (.str "x") .nil) rfl,
   (decode_class_two_tier c8Env
      (.cons "__class__" (.str "C") (.cons "__module__" (.str "m") (.cons "a" (.str "x") .nil)))
      (.cons "__module__" (.str "m") (.cons "a" (.str "x") .nil))
      (.cons "a" (.str "x") .nil) "C" "m" defaultingCls
      rfl rfl rfl rfl).2.1 (.typeError "unexpected keyword argument")
      (.cons "extra" (.int 7) .nil) rfl rfl rfl⟩

/-- **C9 (amended).**  With the time-ordered (uuid1) identifier mode and
both codec classes explicitly configured, `serialize` and `deserialize`
are pure per call: the result is independent of the ambient uuid source
and neither call changes the transcoder's state.  (Without these
provisos the claim fails: in uuid4 mode each call embeds a fresh
identifier, and with a codec-class field left `None` the first call
assigns the default codec class to `self` — source lines 62-65, 74-75 and
111-112; see the counterexample.) -/
theorem serialize_deserialize_pure
    (t : Transcoder) (env : PyEnv) (e : DomainEventObj) (s : StoredEvent) (u1 u2 : String)
    (huuid : t.serialize_with_uuid1 = true)
    (henc : t.json_encoder_cls = some .objectJSONEncoder)
    (hdec : t.json_decoder_cls = some .objectJSONDecoder) :
    Transcoder.serialize t u1 e = Transcoder.serialize t u2 e ∧
    (Transcoder.serialize t u1 e).2 = t ∧
    (Transcoder.deserialize t env s).2 = t := by
  have ht2 : ({ t with serialize_with_uuid1 := true, json_encoder_cls := some (t.json_encoder_cls.getD JsonEncoderCls.objectJSONEncoder) } : Transcoder) = t := by
    cases t with
    | mk a b c d2 e2 f =>
      simp only at henc huuid
      subst huuid
      subst henc
      rfl
  have ht2d : ({ t with json_decoder_cls := some (t.json_decoder_cls.getD JsonDecoderCls.objectJSONDecoder) } : Transcoder) = t := by
    cases t with
    | mk a b c d2 e2 f =>
      simp only at hdec
      rw [hdec]
  refine ⟨?_, ?_, ?_⟩
  · simp only [Transcoder.serialize, huuid, eq_self_iff_true, if_true]
  · simp only [Transcoder.serialize, huuid, eq_self_iff_true, if_true]
    rw [ht2]
    repeat first | rfl | split
  · cases hA : s.event_attrs
    all_goals simp only [Transcoder.deserialize, hA]
    all_goals rw [ht2d]
    all_goals repeat first | rfl | split
    all_goals rename_i heqX
    all_goals repeat split at heqX
    all_goals (injection heqX with h1 h2; rw [← h2]; repeat first | rfl | split)

/-- Witness for C9 (amended): a fully configured uuid1-mode transcoder. -/
def configuredTranscoder : Transcoder :=
  { serialize_without_json := false, serialize_with_uuid1 := true,
    json_encoder_cls := some .objectJSONEncoder, json_decoder_cls := some .objectJSONDecoder,
    cipher := Option.none, always_encrypt := false }

theorem serialize_deserialize_pure_witness :
    Transcoder.serialize configuredTranscoder "aaaa" fixtureEvent
      = Transcoder.serialize configuredTranscoder "bbbb" fixtureEvent ∧
    (Transcoder.serialize configuredTranscoder "aaaa" fixtureEvent).2 = configuredTranscoder ∧
    (Transcoder.deserialize configuredTranscoder fixtureEnv fixtureRecordPlain).2
      = configuredTranscoder :=
  serialize_deserialize_pure configuredTranscoder fixtureEnv fixtureEvent fixtureRecordPlain
    "aaaa" "bbbb" rfl rfl rfl

/-- An unconfigured transcoder in uuid4 (random-token) identifier mode. -/
def uuid4Transcoder : Transcoder :=
  { serialize_without_json := false, serialize_with_uuid1 := false,
    json_encoder_cls := Option.none, json_decoder_cls := Option.none,
    cipher := Option.none, always_encrypt := false }

/-- Counterexample to C9 as stated: in uuid4 identifier mode two calls on
the same event return records with different (freshly generated)
`event_id`s, and a call on a transcoder whose `json_encoder_cls` is `None`
mutates it (source lines 74-75 assign the default class to `self`). -/
theorem serialize_nondeterministic_uuid4_and_mutates :
    (Transcoder.serialize uuid4Transcoder "aaaa" fixtureEvent).1.map StoredEvent.event_id
      = .ok (.str "aaaa") ∧
    (Transcoder.serialize uuid4Transcoder "bbbb" fixtureEvent).1.map StoredEvent.event_id
      = .ok (.str "bbbb") ∧
    (Transcoder.serialize uuid4Transcoder "aaaa" fixtureEvent
      ≠ Transcoder.serialize uuid4Transcoder "bbbb" fixtureEvent) ∧
    uuid4Transcoder.json_encoder_cls = Option.none ∧
    (Transcoder.serialize uuid4Transcoder "aaaa" fixtureEvent).2.json_encoder_cls
      = some .objectJSONEncoder ∧
    ((Transcoder.serialize uuid4Transcoder "aaaa" fixtureEvent).2 ≠ uuid4Transcoder) := by
  refine ⟨rfl, rfl, ?_, rfl, rfl, ?_⟩
  · intro h
    have h1 := congrArg (fun p => p.1.map StoredEvent.event_id) h
    simp only at h1
    have h2 : (Except.ok (PyVal.str "aaaa") : Except PyErr PyVal)
        = .ok (.str "bbbb") := h1
    simp at h2
  · intro h
    have h1 := congrArg Transcoder.json_encoder_cls h
    have h2 : (some JsonEncoderCls.objectJSONEncoder : Option JsonEncoderCls)
        = Option.none := h1
    simp at h2

/-- **C10.**  The generic-object fallback hook encodes a value as exactly
the `__class__`/`__module__` tag pair: none of the object's attribute
values appear in the encoded form (the encoding of two objects of the
same class with different attributes is identical), and decoding that
form invokes the resolved class's constructor with zero keyword
arguments — the round trip through this hook preserves only type identity
and loses all attribute data. -/
theorem generic_fallback_drops_attributes
    (env : PyEnv) (mo q : String) (attrs attrs2 : PyFields) (cls : ClassSpec)
    (hcl : env.classes mo q = some cls) :
    json_dumps (.obj mo q attrs)
      = .obj (.cons "__class__" (.str q) (.cons "__module__" (.str mo) .nil)) ∧
    json_dumps (.obj mo q attrs) = json_dumps (.obj mo q attrs2) ∧
    json_loadsVal env (json_dumps (.obj mo q attrs))
      = (cls.construct .nil).map (fun a0 => .obj cls.module cls.qualname a0) := by
  refine ⟨rfl, rfl, ?_⟩
  have hp1 : popKeyF (.cons "__class__" (.str q) (.cons "__module__" (.str mo) .nil)) "__class__"
      = some (.str q, .cons "__module__" (.str mo) .nil) := rfl
  have hp2 : popKeyF (.cons "__module__" (PyVal.str mo) .nil) "__module__"
      = some (.str mo, .nil) := rfl
  have hstep : json_loadsVal env (json_dumps (.obj mo q attrs))
      = decode_classF 4 env (.cons "__class__" (.str q) (.cons "__module__" (.str mo) .nil)) := by
    show from_jsonable env (.cons "__class__" (.str q) (.cons "__module__" (.str mo) .nil)) = _
    rw [from_jsonable]
    exact from_jsonableF_to_class _ env _ rfl rfl rfl
  rw [hstep, show (4 : Nat) = 3 + 1 from rfl, decode_classF]
  simp only [hp1, hp2, hcl]
  cases hc0 : cls.construct PyFields.nil with
  | ok a0 => simp [hc0, Except.map]
  | error er => simp [hc0, Except.map]

/-- Witness for C10: decoding the encoding of an object with a payload
attribute via `defaultingEnv` calls `m.C`'s constructor with no keyword
arguments; the payload is gone and only the constructor-made `extra`
attribute is present. -/
theorem generic_fallback_drops_attributes_witness :
    json_dumps (.obj "m" "C" (.cons "payload" (.int 5) .nil))
      = .obj (.cons "__class__" (.str "C") (.cons "__module__" (.str "m") .nil)) ∧
    json_loadsVal defaultingEnv (json_dumps (.obj "m" "C" (.cons "payload" (.int 5) .nil)))
      = .ok (.obj "m" "C" (.cons "extra" (.int 7) .nil)) :=
  ⟨(generic_fallback_drops_attributes defaultingEnv "m" "C"
      (.cons "payload" (.int 5) .nil) .nil defaultingCls rfl).1,
   (generic_fallback_drops_attributes defaultingEnv "m" "C"
      (.cons "payload" (.int 5) .nil) .nil defaultingCls rfl).2.2⟩

end Transcoding
